import Mathlib

/-!
Verification of the lolly-backend asynchronous chat-processing subsystem.

The definitions below are a shallow embedding of the JavaScript source:
the BullMQ worker processor and `processMessage` from `src/worker.js`, the
Express handlers `POST /chat` and `GET /status/:jobId` and the
`defaultJobOptions` queue configuration from the API entry point
(`src/unnamed/part_001`).  External effects (OpenAI, ElevenLabs, ffmpeg,
rhubarb, the filesystem, nanoid) are modelled as oracles supplied through
environment records; dynamic JavaScript values are modelled by a small JSON
datatype with JavaScript truthiness and property access.
-/

namespace Lolly

/-- Model of a JavaScript/JSON value.  `null` also stands for the JavaScript
`undefined` that results from reading an absent object property: the code
under study never distinguishes the two. -/
inductive Json where
  | null : Json
  | bool (b : Bool) : Json
  | num (q : ℚ) : Json
  | str (s : String) : Json
  | arr (elems : List Json) : Json
  | obj (fields : List (String × Json)) : Json

/-- First binding of a key in an object's field list, `none` otherwise
(JavaScript property lookup on a non-null value). -/
def Json.getField : Json → String → Option Json
  | .obj fields, k => fields.lookup k
  | _, _ => none

/-- JavaScript property access `v[k]` on a non-null value: an absent
property reads as `undefined`, modelled by `null`. -/
def Json.getF (v : Json) (k : String) : Json :=
  (v.getField k).getD .null

/-- JavaScript truthiness of a value: `null`/`undefined`, `false`, `0` and
the empty string are falsy; every object and every array is truthy. -/
def Json.truthy : Json → Bool
  | .null => false
  | .bool b => b
  | .num q => q != 0
  | .str s => s != ""
  | .arr _ => true
  | .obj _ => true

/-- The element sequence a JavaScript `for (i = 0; i < v.length; i++)`
loop with body `v[i]` walks over: the elements of an array, the
one-character strings of a string, and nothing at all for values whose
`length` property is `undefined` (the comparison `i < undefined` is false,
so the loop body never runs). -/
def Json.jsElems : Json → List Json
  | .arr elems => elems
  | .str s => s.data.map (fun c => Json.str (String.singleton c))
  | _ => []

/-- Oracle for the external effects of one pipeline run (`src/worker.js`):
per-segment synthesized audio (ElevenLabs then base64), per-segment
lip-sync data (ffmpeg + rhubarb then JSON read), the fresh `nanoid(10)`
session identifier drawn for each segment, and the audio directory. -/
structure WorkerEnv where
  audioBase64 : Nat → String
  lipsyncData : Nat → Json
  sessionIdOf : Nat → String
  audioDir : String

/-- `processMessage` (`src/worker.js` lines 66–103): synthesizes audio and
lip-sync data for one reply segment and returns the record of
`src/worker.js` lines 90–98 — field order as in the source object literal,
including `audioPath` and `sessionId`. -/
def processMessage (env : WorkerEnv) (userId : String) (messageIndex : Nat)
    (text facialExpression animation : Json) : Json :=
  let sessionId := env.sessionIdOf messageIndex
  let basePath := env.audioDir ++ "/" ++ userId ++ "/message_" ++ sessionId
      ++ "_" ++ toString messageIndex
  Json.obj [
    ("text", text),
    ("audio", Json.str (env.audioBase64 messageIndex)),
    ("lipsync", env.lipsyncData messageIndex),
    ("facialExpression", facialExpression),
    ("animation", animation),
    ("audioPath", Json.str (basePath ++ ".mp3")),
    ("sessionId", Json.str sessionId)
  ]

/-- The per-segment loop of the worker processor (`src/worker.js` lines
240–254), with `n = messages.length` fixed at loop entry and `i` the loop
counter: returns the accumulated `processedMessages` list and, in order,
the successive values passed to `job.updateProgress`
(`((i + 1) / messages.length) * 100`). -/
def processLoop (env : WorkerEnv) (userId : String) (n : Nat) :
    Nat → List Json → List Json × List ℚ
  | _, [] => ([], [])
  | i, m :: rest =>
      let processed := processMessage env userId i (m.getF "text")
        (m.getF "facialExpression") (m.getF "animation")
      let tail := processLoop env userId n (i + 1) rest
      (processed :: tail.1, (((i : ℚ) + 1) / (n : ℚ)) * 100 :: tail.2)

/-- Outcome of one attempt of the worker processor: the value returned to
BullMQ on success (plus the ordered progress updates issued along the
way), or the thrown error on failure. -/
inductive AttemptOutcome where
  | success (result : Json) (progress : List ℚ) : AttemptOutcome
  | failure (err : String) : AttemptOutcome

/-- Whether an attempt outcome is a thrown error. -/
def AttemptOutcome.isFailure : AttemptOutcome → Bool
  | .failure _ => true
  | .success _ _ => false

/-- The `'chat-processing'` worker processor body (`src/worker.js` lines
203–260), from the point where the OpenAI reply content is in hand.
`content` is the parse result of `JSON.parse` on the reply:  `none` when
the content is missing or not parseable JSON (then `JSON.parse` throws and
the processor rethrows).  A parsed `null` also throws: the subsequent
`messages.messages` property access is a TypeError on `null`.  Otherwise
`messages.messages` is unwrapped when truthy (`src/worker.js` lines
234–237) and the segment loop runs. -/
def chatProcessor (env : WorkerEnv) (userId : String)
    (content : Option Json) : AttemptOutcome :=
  match content with
  | none => .failure "SyntaxError: upstream reply content is not valid JSON"
  | some .null => .failure "TypeError: cannot read properties of null"
  | some parsed =>
      let messages :=
        if (parsed.getF "messages").truthy then parsed.getF "messages"
        else parsed
      let run := processLoop env userId messages.jsElems.length 0
        messages.jsElems
      .success (Json.obj [("messages", Json.arr run.1)]) run.2

/-- `defaultJobOptions.attempts` (`src/unnamed/part_001` line 128). -/
def maxAttempts : Nat := 3

/-- `defaultJobOptions.backoff.delay` (`src/unnamed/part_001` line 131);
the backoff type configured there is `'exponential'`. -/
def backoffBaseDelay : Nat := 1000

/-- The delay BullMQ's built-in `'exponential'` backoff computes for the
retry after the `attemptsMade`-th failed attempt, as configured with base
delay 1000: `delay * 2 ^ (attemptsMade - 1)` milliseconds. -/
def backoffDelay (attemptsMade : Nat) : Nat :=
  backoffBaseDelay * 2 ^ (attemptsMade - 1)

/-- What becomes of a job whose attempt just threw: requeued for attempt
number `nextAttempt` after `delay` milliseconds, or terminally failed. -/
inductive FailStep where
  | requeued (nextAttempt : Nat) (delay : Nat) : FailStep
  | terminallyFailed (err : String) : FailStep
  deriving Repr, DecidableEq

/-- BullMQ's uniform treatment, under the queue's `defaultJobOptions`
(`src/unnamed/part_001` lines 127–140), of a job whose attempt
number `attemptsMade` (1-based) threw error `err`: while fewer than
`attempts = 3` attempts have been made the job is requeued with the
configured exponential backoff, otherwise it fails terminally with the
thrown error as `failedReason`.  The processor (`src/worker.js` lines
257–260) rethrows every error unchanged, so every failure — parse failures
included — reaches this policy unclassified. -/
def onAttemptFailure (attemptsMade : Nat) (err : String) : FailStep :=
  if attemptsMade < maxAttempts then
    .requeued (attemptsMade + 1) (backoffDelay attemptsMade)
  else
    .terminallyFailed err

/-- The key list of a JSON object, in field order (empty for non-objects). -/
def Json.keys : Json → List String
  | .obj fields => fields.map Prod.fst
  | _ => []

/-- The job states BullMQ's `Job.getState` can report, with their wire
names as returned to JavaScript.  Modelled from the BullMQ library used by
the source: the possible results are the strings `completed`, `failed`,
`active`, `delayed`, `waiting`, `waiting-children`, `prioritized` and
`unknown` — there is no state named `queued`; a job waiting to be picked
up reports `waiting` and a job delayed by backoff reports `delayed`. -/
inductive JobState where
  | completed : JobState
  | failed : JobState
  | active : JobState
  | waiting : JobState
  | delayed : JobState
  | waitingChildren : JobState
  | prioritized : JobState
  | unknown : JobState
  deriving Repr, DecidableEq

/-- The wire name of a job state. -/
def JobState.name : JobState → String
  | .completed => "completed"
  | .failed => "failed"
  | .active => "active"
  | .waiting => "waiting"
  | .delayed => "delayed"
  | .waitingChildren => "waiting-children"
  | .prioritized => "prioritized"
  | .unknown => "unknown"

/-- The view of a stored job the status endpoint reads: its state, its
`progress` value (last value passed to `updateProgress`, `0` before any
update), its return value and its failure reason. -/
structure StatusJob where
  state : JobState
  progress : ℚ
  returnvalue : Json
  failedReason : String

/-- An HTTP response: status code and JSON body. -/
structure Response where
  status : Nat
  body : Json

/-- The `GET /status/:jobId` handler (`src/unnamed/part_001` lines
264–301).  `lookup` is the result of `chatQueue.getJob(jobId)`: `none`
when the id is unknown.  For a completed job the result is echoed; for a
failed job the `failedReason` is echoed verbatim under a 500; for every
other state the handler sends the raw state name and the progress value
with a 200. -/
def statusEndpoint (lookup : Option StatusJob) : Response :=
  match lookup with
  | none => ⟨404, Json.obj [("error", Json.str "Job not found")]⟩
  | some job =>
      if job.state = .completed then
        ⟨200, Json.obj [("status", Json.str "completed"),
                        ("result", job.returnvalue)]⟩
      else if job.state = .failed then
        ⟨500, Json.obj [("status", Json.str "failed"),
                        ("error", Json.str job.failedReason)]⟩
      else
        ⟨200, Json.obj [("status", Json.str job.state.name),
                        ("progress", Json.num job.progress)]⟩

/-- Truthiness of a `process.env` string (a JavaScript string or
`undefined`): `undefined` and the empty string are falsy. -/
def envStrTruthy : Option String → Bool
  | none => false
  | some s => s != ""

/-- Environment of the API entry point (`src/unnamed/part_001`):
the two API-key configuration values, the fresh `nanoid(10)` drawn when
the request carries no user id, the filesystem reads used for the canned
responses, and the outcome of `chatQueue.add` (`some id` on success with
the id BullMQ assigns, `none` when the call throws). -/
structure ApiEnv where
  elevenLabsApiKey : Option String
  openaiApiKey : String
  freshUserId : String
  readFileB64 : String → Option String
  readJson : String → Option Json
  queueAdd : Option String

/-- A parsed `POST /chat` request body: its `message` and `userId`
properties as JavaScript values (`null` models an absent property). -/
structure ChatRequest where
  message : Json
  userId : Json

/-- `req.body.userId || nanoid(10)` (`src/unnamed/part_001` line 180). -/
def resolvedUserId (env : ApiEnv) (req : ChatRequest) : Json :=
  if req.userId.truthy then req.userId else Json.str env.freshUserId

/-- The `POST /chat` handler (`src/unnamed/part_001` lines 177–261).
Returns the response together with the list of jobs added to the
`chat-processing` queue (job name paired with job data).  The first
branch (falsy `message`) serves the demo intro; the second branch
(`!elevenLabsApiKey || openai.apiKey === "-"`, line 213) serves the
canned API-key warning; only the final branch enqueues a job and answers
`202` with `{ status: 'processing', jobId, userId }`. -/
def chatEndpoint (env : ApiEnv) (req : ChatRequest) :
    Response × List (String × Json) :=
  let userMessage := req.message
  let userId := resolvedUserId env req
  if !userMessage.truthy then
    match env.readFileB64 "audios/intro_0.wav",
          env.readJson "audios/intro_0.json",
          env.readFileB64 "audios/intro_1.wav",
          env.readJson "audios/intro_1.json" with
    | some a0, some l0, some a1, some l1 =>
        (⟨200, Json.obj [
          ("messages", Json.arr [
            Json.obj [("text", Json.str "Hey dear... How was your day?"),
                      ("audio", Json.str a0),
                      ("lipsync", l0),
                      ("facialExpression", Json.str "smile"),
                      ("animation", Json.str "Talking_1")],
            Json.obj [("text", Json.str
                        "I missed you so much... Please don't go for so long!"),
                      ("audio", Json.str a1),
                      ("lipsync", l1),
                      ("facialExpression", Json.str "sad"),
                      ("animation", Json.str "Crying")]]),
          ("userId", userId)]⟩, [])
    | _, _, _, _ =>
        (⟨500, Json.obj [("error",
          Json.str "Failed to process intro message")]⟩, [])
  else if !envStrTruthy env.elevenLabsApiKey || env.openaiApiKey == "-" then
    match env.readFileB64 "audios/api_0.wav",
          env.readJson "audios/api_0.json",
          env.readFileB64 "audios/api_1.wav",
          env.readJson "audios/api_1.json" with
    | some a0, some l0, some a1, some l1 =>
        (⟨200, Json.obj [
          ("messages", Json.arr [
            Json.obj [("text", Json.str
                        "Please my dear, don't forget to add your API keys!"),
                      ("audio", Json.str a0),
                      ("lipsync", l0),
                      ("facialExpression", Json.str "angry"),
                      ("animation", Json.str "Angry")],
            Json.obj [("text", Json.str
                        "You don't want to ruin Wawa Sensei with a crazy ChatGPT and ElevenLabs bill, right?"),
                      ("audio", Json.str a1),
                      ("lipsync", l1),
                      ("facialExpression", Json.str "smile"),
                      ("animation", Json.str "Laughing")]]),
          ("userId", userId)]⟩, [])
    | _, _, _, _ =>
        (⟨500, Json.obj [("error",
          Json.str "Failed to process API key warning message")]⟩, [])
  else
    match env.queueAdd with
    | some jobId =>
        (⟨202, Json.obj [("status", Json.str "processing"),
                         ("jobId", Json.str jobId),
                         ("userId", userId)]⟩,
         [("process-chat", Json.obj [("userId", userId),
                                     ("userMessage", userMessage)])])
    | none =>
        (⟨500, Json.obj [("error",
          Json.str "Failed to create chat job")]⟩, [])

/-- A `removeOnComplete` / `removeOnFail` retention policy value. -/
structure RemovalPolicy where
  age : Option Nat
  count : Option Nat
  deriving Repr, DecidableEq

/-- A `backoff` configuration value. -/
structure BackoffCfg where
  type : String
  delay : Nat
  deriving Repr, DecidableEq

/-- The queue's `defaultJobOptions` shape. -/
structure JobOptionsCfg where
  attempts : Nat
  backoff : BackoffCfg
  removeOnComplete : RemovalPolicy
  removeOnFail : RemovalPolicy
  deriving Repr, DecidableEq

/-- `defaultJobOptions` of the `chat-processing` queue
(`src/unnamed/part_001` lines 127–140). -/
def defaultJobOptions : JobOptionsCfg :=
  { attempts := 3
    backoff := { type := "exponential", delay := 1000 }
    removeOnComplete := { age := some 3600, count := some 100 }
    removeOnFail := { age := some (24 * 3600), count := none } }

/-- The worker's `removeOnComplete` option (`src/worker.js` lines
274–277). -/
def workerRemoveOnComplete : RemovalPolicy :=
  { age := some 3600, count := some 100 }

/-- The worker's `removeOnFail` option (`src/worker.js` lines 278–280). -/
def workerRemoveOnFail : RemovalPolicy :=
  { age := some (24 * 3600), count := none }

/-- A stored job record as the retention clean-up sees it: its state, its
age in seconds since it finished (meaningful for terminal records), and
its 0-based recency rank among retained completed records (0 = most
recent). -/
structure JobRecord where
  state : JobState
  ageSeconds : Nat
  completedRank : Nat

/-- Modelled from the BullMQ library as configured by `defaultJobOptions`
(`src/unnamed/part_001` lines 133–139) and the worker options
(`src/worker.js` lines 274–280): clean-up keeps a completed record only
while it is at most `removeOnComplete.age = 3600` seconds old and among
the `removeOnComplete.count = 100` most recent completed records, keeps a
failed record only while it is at most `removeOnFail.age = 86400` seconds
old, and never touches a record in any other state. -/
def keptAfterSweep (r : JobRecord) : Bool :=
  match r.state with
  | .completed => decide (r.ageSeconds ≤ 3600) && decide (r.completedRank < 100)
  | .failed => decide (r.ageSeconds ≤ 24 * 3600)
  | _ => true

/-- Progress values stored during one attempt that completes `k` of its
`n` segments before the attempt ends: the loop at `src/worker.js` lines
240–254 issues one `updateProgress` per completed segment, so these are
the first `k` values of its update sequence. -/
def attemptProgress (n k : Nat) : List ℚ :=
  (List.range k).map (fun i : Nat => (((i : ℚ) + 1) / (n : ℚ)) * 100)

/-- The progress values successive polls of `GET /status/:jobId` can
observe across a job's attempts, where `ks` lists how many segments each
attempt completed: attempts run in order, each `updateProgress` overwrites
the stored value, and a poll reads the value current at poll time, so the
observable value sequence is the concatenation of the per-attempt update
sequences. -/
def observedProgress (n : Nat) (ks : List Nat) : List ℚ :=
  (ks.map (attemptProgress n)).flatten

/-- The progress-update sequence of a run (empty for a failed run). -/
def AttemptOutcome.progressOf : AttemptOutcome → List ℚ
  | .success _ p => p
  | .failure _ => []

/-- The value a run returns to BullMQ (`null` for a failed run). -/
def AttemptOutcome.resultOf : AttemptOutcome → Json
  | .success r _ => r
  | .failure _ => .null

/-- A concrete external-effects oracle used to evaluate the pipeline on
sample inputs. -/
def sampleWorkerEnv : WorkerEnv :=
  { audioBase64 := fun i => "QXVkaW8" ++ toString i
    lipsyncData := fun _ => Json.obj [("mouthCues", Json.arr [])]
    sessionIdOf := fun i => "s" ++ toString i
    audioDir := "audios" }

/-- The progress value `((i + 1) / n) * 100` reported after segment `i`
of `n` completes. -/
def progressAt (n i : Nat) : ℚ := (((i : ℚ) + 1) / (n : ℚ)) * 100

/-- The progress-update sequence of the segment loop, in closed form: the
loop starting at counter `i` over the remaining segment list issues one
update per segment, with values `progressAt n (i + j)` for successive
`j`. -/
theorem processLoop_progress (env : WorkerEnv) (u : String) (n : Nat)
    (ms : List Json) : ∀ i : Nat,
    (processLoop env u n i ms).2 =
      (List.range ms.length).map (fun j => progressAt n (i + j)) := by
  induction ms with
  | nil => intro i; rfl
  | cons m rest ih =>
      intro i
      simp only [processLoop, ih (i + 1), List.length_cons,
        List.range_succ_eq_map, List.map_cons, List.map_map]
      refine congrArg₂ List.cons (by simp [progressAt]) ?_
      refine List.map_congr_left ?_
      intro j _
      simp only [Function.comp]
      congr 1
      omega

/-- The segment loop produces exactly one processed record per segment. -/
theorem processLoop_length (env : WorkerEnv) (u : String) (n : Nat)
    (ms : List Json) : ∀ i : Nat,
    (processLoop env u n i ms).1.length = ms.length := by
  induction ms with
  | nil => intro i; rfl
  | cons m rest ih => intro i; simp only [processLoop, List.length_cons, ih (i + 1)]

/-- The `j`-th record the segment loop produces is `processMessage`
applied to the `j`-th segment, at index `i + j`. -/
theorem processLoop_get (env : WorkerEnv) (u : String) (n : Nat)
    (ms : List Json) : ∀ (i j : Nat), j < ms.length →
    (processLoop env u n i ms).1.getD j .null =
      processMessage env u (i + j) ((ms.getD j .null).getF "text")
        ((ms.getD j .null).getF "facialExpression")
        ((ms.getD j .null).getF "animation") := by
  induction ms with
  | nil => intro i j h; simp at h
  | cons m rest ih =>
      intro i j h
      match j with
      | 0 => simp [processLoop]
      | j + 1 =>
          have hj : j < rest.length := by
            simpa [Nat.succ_lt_succ_iff] using h
          have := ih (i + 1) j hj
          simp only [processLoop, List.getD_cons_succ, this]
          have : i + 1 + j = i + (j + 1) := by omega
          rw [this]

/-- The per-attempt progress prefix is grounded in the code: completing
`k` segments of an attempt over `ms` stores exactly the first `k` values
of the loop's update sequence. -/
theorem attemptProgress_eq_take (env : WorkerEnv) (u : String)
    (ms : List Json) (k : Nat) (hk : k ≤ ms.length) :
    attemptProgress ms.length k = ((processLoop env u ms.length 0 ms).2).take k := by
  rw [processLoop_progress, ← List.map_take, List.take_range,
    Nat.min_eq_left hk]
  simp [attemptProgress, progressAt]

/-- The processor on an upstream reply that parses to a JSON array of
segments succeeds, running the segment loop over that array. -/
theorem chatProcessor_arr (env : WorkerEnv) (u : String) (msgs : List Json) :
    chatProcessor env u (some (Json.arr msgs)) =
      .success
        (Json.obj [("messages",
          Json.arr (processLoop env u msgs.length 0 msgs).1)])
        (processLoop env u msgs.length 0 msgs).2 := by
  simp [chatProcessor, Json.getF, Json.getField, Json.truthy, Json.jsElems]

/-- Claim C4: for a segment list of length `n ≥ 1`, the pipeline issues
exactly one `updateProgress` per segment, with value
`((i + 1) / n) * 100` after segment `i`, so the reported values of one
successful attempt are `100/n, 200/n, …, 100` in that order. -/
theorem progress_updates_per_segment (env : WorkerEnv) (u : String)
    (msgs : List Json) (hn : 1 ≤ msgs.length) :
    (chatProcessor env u (some (Json.arr msgs))).progressOf.length =
      msgs.length ∧
    (chatProcessor env u (some (Json.arr msgs))).progressOf =
      (List.range msgs.length).map
        (fun i : Nat => (((i : ℚ) + 1) / (msgs.length : ℚ)) * 100) ∧
    (chatProcessor env u (some (Json.arr msgs))).progressOf.getLast? =
      some 100 := by
  have hpo : (chatProcessor env u (some (Json.arr msgs))).progressOf =
      (processLoop env u msgs.length 0 msgs).2 := by
    rw [chatProcessor_arr]
    rfl
  rw [hpo, processLoop_progress]
  refine ⟨by simp, ?_, ?_⟩
  · refine List.map_congr_left ?_
    intro j _
    simp [progressAt]
  · obtain ⟨m, hm⟩ := Nat.exists_eq_add_of_le hn
    have hm' : msgs.length = m + 1 := by omega
    rw [hm', List.range_succ, List.map_append, List.map_cons, List.map_nil,
      List.getLast?_concat]
    have hne : ((m : ℚ) + 1) ≠ 0 := by positivity
    simp only [progressAt, Nat.zero_add, Option.some.injEq]
    push_cast
    field_simp

/-- Witness for C4 on a concrete two-segment reply. -/
theorem progress_updates_per_segment_witness :
    (chatProcessor sampleWorkerEnv "u1"
      (some (Json.arr [Json.null, Json.null]))).progressOf.length = 2 ∧
    (chatProcessor sampleWorkerEnv "u1"
      (some (Json.arr [Json.null, Json.null]))).progressOf =
      (List.range 2).map
        (fun i : Nat => (((i : ℚ) + 1) / (2 : ℚ)) * 100) ∧
    (chatProcessor sampleWorkerEnv "u1"
      (some (Json.arr [Json.null, Json.null]))).progressOf.getLast? =
      some 100 :=
  progress_updates_per_segment sampleWorkerEnv "u1" [Json.null, Json.null]
    (by decide)

/-- Claim C5 (amended): the stored result of a successful run is the
object `{ messages: [...] }` holding the ordered per-segment records, one
per segment and indexed in segment order, each record carrying exactly
the fields `text`, `audio`, `lipsync`, `facialExpression`, `animation`,
`audioPath`, `sessionId` — the five fields of the claim plus the
`audioPath` and `sessionId` fields the code also stores. -/
theorem result_record_schema (env : WorkerEnv) (u : String)
    (msgs : List Json) :
    (chatProcessor env u (some (Json.arr msgs))).resultOf =
      Json.obj [("messages",
        Json.arr (processLoop env u msgs.length 0 msgs).1)] ∧
    (processLoop env u msgs.length 0 msgs).1.length = msgs.length ∧
    (∀ j, j < msgs.length →
      (processLoop env u msgs.length 0 msgs).1.getD j .null =
        processMessage env u j ((msgs.getD j .null).getF "text")
          ((msgs.getD j .null).getF "facialExpression")
          ((msgs.getD j .null).getF "animation")) ∧
    (∀ j, j < msgs.length →
      ((processLoop env u msgs.length 0 msgs).1.getD j .null).keys =
        ["text", "audio", "lipsync", "facialExpression", "animation",
         "audioPath", "sessionId"]) := by
  refine ⟨by rw [chatProcessor_arr]; rfl, processLoop_length env u _ msgs 0,
    ?_, ?_⟩
  · intro j hj
    simpa using processLoop_get env u msgs.length msgs 0 j hj
  · intro j hj
    have := processLoop_get env u msgs.length msgs 0 j hj
    rw [this]
    simp [processMessage, Json.keys]

/-- Witness for the amended C5 on a concrete one-segment reply. -/
theorem result_record_schema_witness :
    (chatProcessor sampleWorkerEnv "u1"
      (some (Json.arr [Json.obj [("text", Json.str "hi")]]))).resultOf =
      Json.obj [("messages", Json.arr
        (processLoop sampleWorkerEnv "u1" 1 0
          [Json.obj [("text", Json.str "hi")]]).1)] ∧
    ((processLoop sampleWorkerEnv "u1" 1 0
        [Json.obj [("text", Json.str "hi")]]).1.getD 0 .null).keys =
      ["text", "audio", "lipsync", "facialExpression", "animation",
       "audioPath", "sessionId"] :=
  ⟨(result_record_schema sampleWorkerEnv "u1"
      [Json.obj [("text", Json.str "hi")]]).1,
   (result_record_schema sampleWorkerEnv "u1"
      [Json.obj [("text", Json.str "hi")]]).2.2.2 0 (by decide)⟩

/-- Sample one-segment run used to exhibit the extra result fields. -/
def c5SampleResult : Json :=
  (chatProcessor sampleWorkerEnv "u1" (some (Json.arr [Json.obj
    [("text", Json.str "hi"), ("facialExpression", Json.str "smile"),
     ("animation", Json.str "Idle")]]))).resultOf

/-- Claim C5 is false as stated: on a concrete one-segment reply the
stored result is not a bare list (it is an object with single key
`messages`), and its per-segment record does not have exactly the five
claimed fields — it also carries `audioPath` (and `sessionId`). -/
theorem result_has_extra_fields :
    c5SampleResult.keys = ["messages"] ∧
    ((c5SampleResult.getF "messages").jsElems.getD 0 .null).keys ≠
      ["text", "audio", "lipsync", "facialExpression", "animation"] ∧
    "audioPath" ∈ ((c5SampleResult.getF "messages").jsElems.getD 0 .null).keys := by
  refine ⟨rfl, by decide, by decide⟩

/-- Claim C10: the worker accepts the generated reply either as a JSON
array of segments or as a JSON object whose `messages` field holds that
array; in the latter case the inner array is unwrapped, and both shapes
produce identical processing. -/
theorem reply_shapes_equivalent (env : WorkerEnv) (u : String)
    (fields : List (String × Json)) (segs : List Json)
    (h : (Json.obj fields).getField "messages" = some (Json.arr segs)) :
    chatProcessor env u (some (Json.obj fields)) =
      chatProcessor env u (some (Json.arr segs)) := by
  have h' : List.lookup "messages" fields = some (Json.arr segs) := h
  simp [chatProcessor, Json.getF, Json.getField, h', Json.truthy,
    Json.jsElems]

/-- Witness for C10 at a concrete object/array pair. -/
theorem reply_shapes_equivalent_witness :
    chatProcessor sampleWorkerEnv "u1"
        (some (Json.obj [("messages",
          Json.arr [Json.obj [("text", Json.str "yo")]])])) =
      chatProcessor sampleWorkerEnv "u1"
        (some (Json.arr [Json.obj [("text", Json.str "yo")]])) :=
  reply_shapes_equivalent sampleWorkerEnv "u1" _ _ rfl

/-- Claim C1 is false as stated: a first attempt whose upstream reply
content does not parse throws, and under the queue's configuration the
job is then requeued for a second attempt with a 1000 ms backoff — it is
not failed terminally without requeue. -/
theorem parse_failure_is_requeued :
    (chatProcessor sampleWorkerEnv "u1" none).isFailure = true ∧
    onAttemptFailure 1
        "SyntaxError: upstream reply content is not valid JSON" =
      .requeued 2 1000 :=
  ⟨rfl, rfl⟩

/-- Claim C1 (amended): a parse failure of the upstream reply is not
special-cased — the thrown error goes through the same uniform retry
policy as every other failure: requeued with the configured backoff while
fewer than 3 attempts have been made, terminally failed only once the
3rd attempt has failed. -/
theorem parse_failure_retry_policy (env : WorkerEnv) (u : String)
    (a : Nat) (e : String) :
    (chatProcessor env u none).isFailure = true ∧
    (a < maxAttempts →
      onAttemptFailure a e = .requeued (a + 1) (backoffDelay a)) ∧
    (maxAttempts ≤ a → onAttemptFailure a e = .terminallyFailed e) := by
  refine ⟨rfl, fun h => ?_, fun h => ?_⟩
  · simp [onAttemptFailure, h]
  · simp [onAttemptFailure, Nat.not_lt.2 h]

/-- Witness for the amended C1 at attempts 1 and 3. -/
theorem parse_failure_retry_policy_witness :
    (chatProcessor sampleWorkerEnv "u1" none).isFailure = true ∧
    onAttemptFailure 1 "boom" = .requeued 2 (backoffDelay 1) ∧
    onAttemptFailure 3 "boom" = .terminallyFailed "boom" :=
  ⟨(parse_failure_retry_policy sampleWorkerEnv "u1" 1 "boom").1,
   (parse_failure_retry_policy sampleWorkerEnv "u1" 1 "boom").2.1 (by decide),
   (parse_failure_retry_policy sampleWorkerEnv "u1" 3 "boom").2.2 (by decide)⟩

/-- Claim C2: a failed attempt below the maximum of 3 is requeued with
the attempt count incremented and a deterministic due-time delay equal to
the capped exponential `min(1000 · 2^(attempt−1), 2000)` (within the
reachable attempt range the configured exponential backoff never exceeds
2000 ms, so it coincides with its capped form); once 3 attempts have
failed the job is terminally failed. -/
theorem retry_backoff_policy (a : Nat) (e : String) (ha : 1 ≤ a) :
    (a < maxAttempts →
      onAttemptFailure a e =
        .requeued (a + 1) (min (backoffBaseDelay * 2 ^ (a - 1)) 2000)) ∧
    (maxAttempts ≤ a → onAttemptFailure a e = .terminallyFailed e) := by
  constructor
  · intro h
    have hcap : min (backoffBaseDelay * 2 ^ (a - 1)) 2000 = backoffDelay a := by
      have : a = 1 ∨ a = 2 := by
        simp only [maxAttempts] at h
        omega
      rcases this with h1 | h2 <;> subst_vars <;> decide
    rw [hcap]
    simp [onAttemptFailure, h]
  · intro h
    simp [onAttemptFailure, Nat.not_lt.2 h]

/-- Witness for C2 at attempts 1 and 3. -/
theorem retry_backoff_policy_witness :
    onAttemptFailure 1 "ETIMEDOUT" = .requeued 2 (min (1000 * 2 ^ 0) 2000) ∧
    onAttemptFailure 3 "ETIMEDOUT" = .terminallyFailed "ETIMEDOUT" :=
  ⟨(retry_backoff_policy 1 "ETIMEDOUT" (by decide)).1 (by decide),
   (retry_backoff_policy 3 "ETIMEDOUT" (by decide)).2 (by decide)⟩

/-- Claim C3 is false as stated: a concrete job awaiting its first pickup
is reported with the status literal `waiting` — the body's status field is
neither of the claimed literals `queued` and `active`. -/
theorem status_for_waiting_job :
    statusEndpoint (some ⟨.waiting, 0, .null, ""⟩) =
      ⟨200, Json.obj [("status", Json.str "waiting"),
                      ("progress", Json.num 0)]⟩ ∧
    ¬ ("waiting" = "queued" ∨ "waiting" = "active") :=
  ⟨rfl, by decide⟩

/-- Claim C3 (amended): an unknown id gets a `404`; a completed job gets
`200` with `{ status: "completed", result }`; a terminally failed job
gets `500` with `{ status: "failed", error }` carrying the failure reason
verbatim; every other job gets `200` with its progress and a status field
equal to the queue's raw state name — `waiting` before first pickup,
`delayed` during backoff, `active` while running — not the literal
`queued`. -/
theorem status_endpoint_contract (j : StatusJob) :
    statusEndpoint none =
      ⟨404, Json.obj [("error", Json.str "Job not found")]⟩ ∧
    (j.state = .completed → statusEndpoint (some j) =
      ⟨200, Json.obj [("status", Json.str "completed"),
                      ("result", j.returnvalue)]⟩) ∧
    (j.state = .failed → statusEndpoint (some j) =
      ⟨500, Json.obj [("status", Json.str "failed"),
                      ("error", Json.str j.failedReason)]⟩) ∧
    (j.state ≠ .completed → j.state ≠ .failed →
      statusEndpoint (some j) =
        ⟨200, Json.obj [("status", Json.str j.state.name),
                        ("progress", Json.num j.progress)]⟩) := by
  refine ⟨rfl, fun h => ?_, fun h => ?_, fun h1 h2 => ?_⟩
  · simp [statusEndpoint, h]
  · have hne : j.state ≠ .completed := by rw [h]; decide
    simp [statusEndpoint, h, hne]
  · simp [statusEndpoint, h1, h2]

/-- Witness for the amended C3 on the four branches. -/
theorem status_endpoint_contract_witness :
    statusEndpoint none =
      ⟨404, Json.obj [("error", Json.str "Job not found")]⟩ ∧
    statusEndpoint (some ⟨.completed, 100, Json.str "r", ""⟩) =
      ⟨200, Json.obj [("status", Json.str "completed"),
                      ("result", Json.str "r")]⟩ ∧
    statusEndpoint (some ⟨.failed, 0, .null, "boom"⟩) =
      ⟨500, Json.obj [("status", Json.str "failed"),
                      ("error", Json.str "boom")]⟩ ∧
    statusEndpoint (some ⟨.active, 50, .null, ""⟩) =
      ⟨200, Json.obj [("status", Json.str "active"),
                      ("progress", Json.num 50)]⟩ :=
  ⟨(status_endpoint_contract ⟨.completed, 100, Json.str "r", ""⟩).1,
   (status_endpoint_contract ⟨.completed, 100, Json.str "r", ""⟩).2.1 rfl,
   (status_endpoint_contract ⟨.failed, 0, .null, "boom"⟩).2.2.1 rfl,
   (status_endpoint_contract ⟨.active, 50, .null, ""⟩).2.2.2
     (by decide) (by decide)⟩

/-- Claim C6: a `POST /chat` whose body carries a (truthy) message, with
both external API keys configured and the queue reachable, enqueues
exactly one `process-chat` job with the request's data and responds
`202 Accepted` with `{ status: 'processing', jobId, userId }`, where
`jobId` is the id the queue assigned and `userId` is the request's user
id (a fresh id when the request carries none). -/
theorem chat_enqueues_one_job (env : ApiEnv) (req : ChatRequest)
    (jid : String)
    (hmsg : req.message.truthy = true)
    (hkey : envStrTruthy env.elevenLabsApiKey = true)
    (hopenai : (env.openaiApiKey == "-") = false)
    (hadd : env.queueAdd = some jid) :
    chatEndpoint env req =
      (⟨202, Json.obj [("status", Json.str "processing"),
                       ("jobId", Json.str jid),
                       ("userId", resolvedUserId env req)]⟩,
       [("process-chat", Json.obj [("userId", resolvedUserId env req),
                                   ("userMessage", req.message)])]) ∧
    (req.userId.truthy = true → resolvedUserId env req = req.userId) := by
  constructor
  · simp [chatEndpoint, hmsg, hkey, hopenai, hadd]
  · intro h
    simp [resolvedUserId, h]

/-- A concrete API environment with both keys configured. -/
def sampleApiEnv : ApiEnv :=
  { elevenLabsApiKey := some "elkey"
    openaiApiKey := "sk-test"
    freshUserId := "fresh12345"
    readFileB64 := fun _ => some "QUJD"
    readJson := fun _ => some (Json.obj [("mouthCues", Json.arr [])])
    queueAdd := some "42" }

/-- Witness for C6 on a concrete request. -/
theorem chat_enqueues_one_job_witness :
    chatEndpoint sampleApiEnv ⟨Json.str "hello", Json.str "u1"⟩ =
      (⟨202, Json.obj [("status", Json.str "processing"),
                       ("jobId", Json.str "42"),
                       ("userId", Json.str "u1")]⟩,
       [("process-chat", Json.obj [("userId", Json.str "u1"),
                                   ("userMessage", Json.str "hello")])]) :=
  (chat_enqueues_one_job sampleApiEnv ⟨Json.str "hello", Json.str "u1"⟩
    "42" rfl rfl rfl rfl).1

/-- Claim C9: a `POST /chat` carrying a (truthy) message that arrives
while the external keys are not configured — the ElevenLabs key absent
or empty, or the OpenAI key left at its placeholder `"-"` — enqueues
nothing, and (when the canned audio assets are readable) answers `200`
with the fixed two-element API-key warning list. -/
theorem chat_without_keys_is_canned (env : ApiEnv) (req : ChatRequest)
    (a0 a1 : String) (l0 l1 : Json)
    (hmsg : req.message.truthy = true)
    (hkeys : envStrTruthy env.elevenLabsApiKey = false ∨
      env.openaiApiKey = "-")
    (h0 : env.readFileB64 "audios/api_0.wav" = some a0)
    (h1 : env.readJson "audios/api_0.json" = some l0)
    (h2 : env.readFileB64 "audios/api_1.wav" = some a1)
    (h3 : env.readJson "audios/api_1.json" = some l1) :
    chatEndpoint env req =
      (⟨200, Json.obj [
        ("messages", Json.arr [
          Json.obj [("text", Json.str
                      "Please my dear, don't forget to add your API keys!"),
                    ("audio", Json.str a0),
                    ("lipsync", l0),
                    ("facialExpression", Json.str "angry"),
                    ("animation", Json.str "Angry")],
          Json.obj [("text", Json.str
                      "You don't want to ruin Wawa Sensei with a crazy ChatGPT and ElevenLabs bill, right?"),
                    ("audio", Json.str a1),
                    ("lipsync", l1),
                    ("facialExpression", Json.str "smile"),
                    ("animation", Json.str "Laughing")]]),
        ("userId", resolvedUserId env req)]⟩, []) := by
  have hcond : (!envStrTruthy env.elevenLabsApiKey ||
      env.openaiApiKey == "-") = true := by
    rcases hkeys with h | h <;> simp [h]
  simp [chatEndpoint, hmsg, hcond, h0, h1, h2, h3]

/-- A concrete API environment with the ElevenLabs key missing. -/
def sampleApiEnvNoKeys : ApiEnv :=
  { elevenLabsApiKey := none
    openaiApiKey := "sk-test"
    freshUserId := "fresh12345"
    readFileB64 := fun _ => some "QUJD"
    readJson := fun _ => some (Json.obj [("mouthCues", Json.arr [])])
    queueAdd := some "42" }

/-- Witness for C9 on a concrete request. -/
theorem chat_without_keys_is_canned_witness :
    chatEndpoint sampleApiEnvNoKeys ⟨Json.str "hello", Json.str "u1"⟩ =
      (⟨200, Json.obj [
        ("messages", Json.arr [
          Json.obj [("text", Json.str
                      "Please my dear, don't forget to add your API keys!"),
                    ("audio", Json.str "QUJD"),
                    ("lipsync", Json.obj [("mouthCues", Json.arr [])]),
                    ("facialExpression", Json.str "angry"),
                    ("animation", Json.str "Angry")],
          Json.obj [("text", Json.str
                      "You don't want to ruin Wawa Sensei with a crazy ChatGPT and ElevenLabs bill, right?"),
                    ("audio", Json.str "QUJD"),
                    ("lipsync", Json.obj [("mouthCues", Json.arr [])]),
                    ("facialExpression", Json.str "smile"),
                    ("animation", Json.str "Laughing")]]),
        ("userId", Json.str "u1")]⟩, []) :=
  chat_without_keys_is_canned sampleApiEnvNoKeys
    ⟨Json.str "hello", Json.str "u1"⟩ "QUJD" "QUJD"
    (Json.obj [("mouthCues", Json.arr [])])
    (Json.obj [("mouthCues", Json.arr [])])
    rfl (Or.inl rfl) rfl rfl rfl rfl

/-- Claim C7 is false as stated: a job whose first attempt completes 2 of
its 3 segments and then fails, and whose retry then runs to completion,
exposes the poll-observable progress sequence
`[100/3, 200/3, 100/3, 200/3, 100]`, which decreases at the retry's first
update. -/
theorem progress_decreases_across_attempts :
    observedProgress 3 [2, 3] =
      [100 / 3, 200 / 3, 100 / 3, 200 / 3, 100] ∧
    ¬ List.Chain' (· ≤ ·) (observedProgress 3 [2, 3]) := by
  constructor
  · show (([2, 3].map (attemptProgress 3)).flatten : List ℚ) = _
    norm_num [attemptProgress, List.range_succ]
  · intro hch
    have h2 : (200 / 3 : ℚ) ≤ 100 / 3 := by
      have := hch
      rw [show observedProgress 3 [2, 3] =
        [100 / 3, 200 / 3, 100 / 3, 200 / 3, 100] from by
          show (([2, 3].map (attemptProgress 3)).flatten : List ℚ) = _
          norm_num [attemptProgress, List.range_succ]] at this
      rcases this with _ | ⟨_, _ | ⟨hle, _⟩⟩
      exact hle
    norm_num at h2

/-- Claim C7 (amended): within a single attempt the progress updates are
non-decreasing — any prefix of the loop's update sequence (its state when
an attempt stops after `k` segments) is sorted — but a retry restarts the
updates at `100/n`, so across attempts successive polls may observe a
decrease. -/
theorem progress_monotone_within_attempt (env : WorkerEnv) (u : String)
    (ms : List Json) (k : Nat) (hk : k ≤ ms.length) :
    attemptProgress ms.length k =
      ((processLoop env u ms.length 0 ms).2).take k ∧
    List.Chain' (· ≤ ·) (attemptProgress ms.length k) := by
  refine ⟨attemptProgress_eq_take env u ms k hk, ?_⟩
  have hmono : Monotone (fun i : Nat =>
      (((i : ℚ) + 1) / ((ms.length : Nat) : ℚ)) * 100) := by
    intro x y hxy
    rcases Nat.eq_zero_or_pos ms.length with hn | hn
    · simp [hn]
    · have hnq : (0 : ℚ) < (ms.length : ℚ) := by exact_mod_cast hn
      have hx : ((x : ℚ) + 1) ≤ ((y : ℚ) + 1) := by
        have hxy' : (x : ℚ) ≤ (y : ℚ) := by exact_mod_cast hxy
        linarith
      have hdiv : ((x : ℚ) + 1) / (ms.length : ℚ) ≤
          ((y : ℚ) + 1) / (ms.length : ℚ) :=
        div_le_div_of_nonneg_right hx hnq.le
      exact mul_le_mul_of_nonneg_right hdiv (by norm_num)
  rw [attemptProgress, List.chain'_iff_pairwise]
  refine List.Pairwise.map _ ?_ (List.pairwise_lt_range k)
  intro a b hab
  exact hmono hab.le

/-- Witness for the amended C7 on a concrete 2-of-3-segment prefix. -/
theorem progress_monotone_within_attempt_witness :
    attemptProgress 3 2 =
      ((processLoop sampleWorkerEnv "u1" 3 0
        [Json.null, Json.null, Json.null]).2).take 2 ∧
    List.Chain' (· ≤ ·) (attemptProgress 3 2) :=
  progress_monotone_within_attempt sampleWorkerEnv "u1"
    [Json.null, Json.null, Json.null] 2 (by decide)

/-- Claim C8: the configured retention policy removes completed records
older than 3600 seconds, caps retained completed records at the 100 most
recent, removes failed records older than 86400 seconds (the queue's
`defaultJobOptions` and the worker options configure identical values),
and the clean-up never touches a record that is not terminal. -/
theorem retention_policy (r : JobRecord) :
    defaultJobOptions.removeOnComplete = ⟨some 3600, some 100⟩ ∧
    defaultJobOptions.removeOnFail = ⟨some 86400, none⟩ ∧
    workerRemoveOnComplete = defaultJobOptions.removeOnComplete ∧
    workerRemoveOnFail = defaultJobOptions.removeOnFail ∧
    (r.state = .completed → 3600 < r.ageSeconds →
      keptAfterSweep r = false) ∧
    (r.state = .completed → 100 ≤ r.completedRank →
      keptAfterSweep r = false) ∧
    (r.state = .failed → 24 * 3600 < r.ageSeconds →
      keptAfterSweep r = false) ∧
    (r.state = .active ∨ r.state = .waiting ∨ r.state = .delayed →
      keptAfterSweep r = true) := by
  refine ⟨by decide, by decide, by decide, by decide,
    fun h hage => ?_, fun h hrank => ?_, fun h hage => ?_, fun h => ?_⟩
  · simp [keptAfterSweep, h, Nat.not_le.2 hage]
  · simp [keptAfterSweep, h, Nat.not_lt.2 hrank]
  · simp [keptAfterSweep, h, Nat.not_le.2 hage]
  · rcases h with h | h | h <;> simp [keptAfterSweep, h]

/-- Witness for C8 on concrete records in each regime. -/
theorem retention_policy_witness :
    keptAfterSweep ⟨.completed, 4000, 0⟩ = false ∧
    keptAfterSweep ⟨.completed, 10, 150⟩ = false ∧
    keptAfterSweep ⟨.failed, 90000, 0⟩ = false ∧
    keptAfterSweep ⟨.active, 999999, 999⟩ = true :=
  ⟨(retention_policy ⟨.completed, 4000, 0⟩).2.2.2.2.1 rfl (by decide),
   (retention_policy ⟨.completed, 10, 150⟩).2.2.2.2.2.1 rfl (by decide),
   (retention_policy ⟨.failed, 90000, 0⟩).2.2.2.2.2.2.1 rfl (by decide),
   (retention_policy ⟨.active, 999999, 999⟩).2.2.2.2.2.2.2 (Or.inl rfl)⟩

end Lolly
